import Mathlib

/-!
Shallow embedding of `src/lambda_function.py`, a single-file AWS Lambda that
fetches scheduled events from the Calendly API, aggregates per-status metrics,
and uploads two CSV artifacts to S3.  Machine-level concerns that the claims do
not touch (pandas CSV quoting, Python float binary representation, the logging
calls) are modelled abstractly; everything with control flow is translated
statement by statement from the source.
-/

namespace LambdaFn

/-! ## Configuration constants (lines 15-27 of the source, with default env values) -/

def S3_BUCKET_NAME : String := "docker-slm"

def S3_FOLDER_PATH : String := "calendly/"

/-- S3 key for the raw-events CSV, as built on line 26 from the module timestamp. -/
def S3_CALENDLY_PATH (timestamp : String) : String :=
  S3_FOLDER_PATH ++ "calendly_scheduled_calls_" ++ timestamp ++ ".csv"

/-- S3 key for the metrics CSV, as built on line 27 from the module timestamp. -/
def S3_METRICS_PATH (timestamp : String) : String :=
  S3_FOLDER_PATH ++ "campaign_metrics_" ++ timestamp ++ ".csv"

/-! ## Data model -/

/-- One flat event record, one per remote page item (the dict built at
lines 127-134 of the source). -/
structure CalEvent where
  event_id : String
  event_type : String
  start_time : String
  end_time : String
  status : String
  invitee_email : String
deriving Repr, DecidableEq

/-- One row of the metrics table built at lines 173-184 of the source.
Percentages are modelled as exact rationals. -/
structure MetricsRow where
  timestamp : String
  total_scheduled_calls : ℕ
  completed_calls : ℕ
  canceled_calls : ℕ
  no_show_calls : ℕ
  deleted_calls : ℕ
  completed_percentage : ℚ
  canceled_percentage : ℚ
  no_show_percentage : ℚ
  deleted_percentage : ℚ
deriving Repr, DecidableEq

/-! ## Event Aggregator (`calculate_metrics`, lines 152-187) -/

/-- Number of events whose `status` equals `s`: the meaning of
`value_counts().to_dict().get(s, 0)` on line 161/164-167. -/
def countStatus (events : List CalEvent) (s : String) : ℕ :=
  events.countP (fun e => decide (e.status = s))

/-- Round a rational to 2 decimal places: the model of Python `round(x, 2)`
on line 171.  Python rounds the nearest binary double half-to-even; the claims
never exercise a tie, so rounding-to-nearest on exact rationals is used. -/
def round2 (q : ℚ) : ℚ :=
  ((round (q * 100) : ℤ) : ℚ) / 100

/-- The inner helper `pct` of `calculate_metrics` (lines 170-171), with the
closed-over `total_scheduled_calls` made an explicit first argument:
`round((value / total) * 100, 2) if total > 0 else 0`. -/
def pct (total_scheduled_calls : ℕ) (value : ℕ) : ℚ :=
  if total_scheduled_calls > 0 then
    round2 (((value : ℚ) / (total_scheduled_calls : ℚ)) * 100)
  else 0

/-- `calculate_metrics` (lines 152-187).  The `calendly_df.empty` guard becomes
the `[]` case returning `none` (no row emitted); otherwise one `MetricsRow` is
built exactly as in lines 158-184.  The module-global `timestamp` is passed
explicitly as `ts`. -/
def calculate_metrics (ts : String) (calendly_df : List CalEvent) : Option MetricsRow :=
  if calendly_df = [] then none
  else
    let total_scheduled_calls := calendly_df.length
    let completed_calls :=
      countStatus calendly_df "active" + countStatus calendly_df "completed"
    let canceled_calls := countStatus calendly_df "canceled"
    let no_show_calls := countStatus calendly_df "no_show"
    let deleted_calls := countStatus calendly_df "deleted"
    some
      { timestamp := ts
        total_scheduled_calls := total_scheduled_calls
        completed_calls := completed_calls
        canceled_calls := canceled_calls
        no_show_calls := no_show_calls
        deleted_calls := deleted_calls
        completed_percentage := pct total_scheduled_calls completed_calls
        canceled_percentage := pct total_scheduled_calls canceled_calls
        no_show_percentage := pct total_scheduled_calls no_show_calls
        deleted_percentage := pct total_scheduled_calls deleted_calls }

/-! ## HTTP layer

Each remote endpoint is modelled by the response the server would give: `ok`
carries the already-JSON-decoded body, `err` a non-2xx status code and text. -/

inductive HttpResp (α : Type) where
  | ok (body : α)
  | err (status_code : ℕ) (text : String)
deriving Repr, DecidableEq

/-- `get_calendly_org_uri` (lines 63-74): on 200, read
`resource.current_organization` (missing field defaults to `""`); on non-2xx,
log and return `None`.  The response body is the optional
`current_organization` field. -/
def get_calendly_org_uri (resp : HttpResp (Option String)) : Option String :=
  match resp with
  | .ok body => some (body.getD "")
  | .err _ _ => none

/-- `get_event_types` (lines 77-88): on 200, the list of `uri` fields of the
`collection`; on non-2xx, log and return the empty list. -/
def get_event_types (resp : HttpResp (List String)) : List String :=
  match resp with
  | .ok collection => collection
  | .err _ _ => []

/-! ## Scheduled-events fetch (`fetch_calendly_scheduled_calls`, lines 92-147) -/

/-- One raw page item as the code reads it: every field is fetched with
`.get`, so each is optional.  `location` is itself an optional object whose
`email` field is optional (line 133). -/
structure Location where
  email : Option String
deriving Repr, DecidableEq

structure RawEvent where
  uri : Option String
  event_type : Option String
  start_time : Option String
  end_time : Option String
  event_status : Option String
  location : Option Location
deriving Repr, DecidableEq

/-- The dict built for each page item at lines 127-134: missing fields default
to `""`, a missing `event_status` defaults to the loop's `status` query value,
and a missing `location`/`email` defaults to `"N/A"`. -/
def mkEvent (status : String) (event : RawEvent) : CalEvent :=
  { event_id := event.uri.getD ""
    event_type := event.event_type.getD ""
    start_time := event.start_time.getD ""
    end_time := event.end_time.getD ""
    status := event.event_status.getD status
    invitee_email := ((event.location.getD { email := none }).email).getD "N/A" }

/-- The query URL the code builds at lines 113-117 for each
(event_type, status) combination, field by field. -/
structure EventsQuery where
  event_type : String
  organization : String
  status : String
  min_start_time : ℤ
  max_start_time : ℤ
  count : ℕ
deriving Repr, DecidableEq

/-- A URL for the scheduled-events endpoint: either a query the code
constructed itself, or an opaque `next_page` link handed back by the server
(line 137). -/
inductive EventsUrl where
  | query (q : EventsQuery)
  | next (u : String)
deriving Repr, DecidableEq

/-- A response for one scheduled-events page: on 200, the `collection` items
plus the optional `pagination.next_page` link; otherwise a non-2xx error. -/
inductive PageResp where
  | ok (collection : List RawEvent) (next_page : Option String)
  | err (status_code : ℕ) (text : String)
deriving Repr, DecidableEq

/-- `min_start_time` of the window: 90 days before `now` (line 108), with time
in seconds. -/
def start_date (now : ℤ) : ℤ := now - 90 * 86400

/-- `max_start_time` of the window: 7 days after `now` (line 109), with time
in seconds. -/
def end_date (now : ℤ) : ℤ := now + 7 * 86400

/-- The `while url:` pagination loop (lines 119-140) for one
(event_type, status) combination.  `api` is the remote server; `fuel` bounds
the number of requests so the model terminates (the Python loop runs until the
server stops supplying `next_page`).  On 200 the page's items are appended and
the loop continues with the `next_page` link; on non-2xx the loop `break`s,
keeping what was already appended and emitting nothing further. -/
def runPages (api : EventsUrl → PageResp) (status : String) :
    ℕ → Option EventsUrl → List CalEvent
  | _, none => []
  | 0, some _ => []
  | fuel + 1, some url =>
    match api url with
    | .ok collection next_page =>
      collection.map (mkEvent status) ++
        runPages api status fuel (next_page.map EventsUrl.next)
    | .err _ _ => []

/-- `fetch_calendly_scheduled_calls` (lines 92-147).  The two guards (falsy
`org_uri`, empty `event_types`) return the empty collection; otherwise the
date window is computed once and the double loop over
`event_types × [active, canceled]` accumulates every combination's pages. -/
def fetch_calendly_scheduled_calls (fuel : ℕ) (now : ℤ)
    (orgResp : HttpResp (Option String)) (etResp : HttpResp (List String))
    (api : EventsUrl → PageResp) : List CalEvent :=
  match get_calendly_org_uri orgResp with
  | none => []
  | some org_uri =>
    if org_uri = "" then []
    else
      let event_types := get_event_types etResp
      if event_types = [] then []
      else
        let sd := start_date now
        let ed := end_date now
        event_types.flatMap fun event_type =>
          (["active", "canceled"]).flatMap fun status =>
            runPages api status fuel (some (EventsUrl.query
              { event_type := event_type, organization := org_uri,
                status := status, min_start_time := sd, max_start_time := ed,
                count := 100 }))

/-- The initial queries the fetch constructs, one per
(event_type, status) combination, mirroring the guards and loop order of
`fetch_calendly_scheduled_calls`. -/
def fetchRequests (now : ℤ) (orgResp : HttpResp (Option String))
    (etResp : HttpResp (List String)) : List EventsQuery :=
  match get_calendly_org_uri orgResp with
  | none => []
  | some org_uri =>
    if org_uri = "" then []
    else
      let event_types := get_event_types etResp
      if event_types = [] then []
      else
        event_types.flatMap fun event_type =>
          (["active", "canceled"]).map fun status =>
            { event_type := event_type, organization := org_uri,
              status := status, min_start_time := start_date now,
              max_start_time := end_date now, count := 100 }

/-! ## Blob store (`upload_to_s3`, lines 45-60) -/

/-- One `put_object` call recorded against the store (lines 54-58). -/
structure S3Put where
  bucket : String
  key : String
  body : String
deriving Repr, DecidableEq

/-- `upload_to_s3` (lines 45-60) as a transformer on the list of puts the
store has received: the `df.empty` guard returns with no put; otherwise the
CSV-serialized table is put under `s3_path` in `S3_BUCKET_NAME`.  `to_csv`
abstracts the pandas serialization. -/
def upload_to_s3 {α : Type} (to_csv : List α → String) (df : List α)
    (s3_path : String) (store : List S3Put) : List S3Put :=
  if df.isEmpty then store
  else store ++ [{ bucket := S3_BUCKET_NAME, key := s3_path, body := to_csv df }]

/-- CSV rendering of the raw-events table (header plus one comma-joined row
per event; pandas quoting is not modelled, no claim depends on the bytes). -/
def eventsCsv (events : List CalEvent) : String :=
  String.intercalate "\n"
    ("event_id,event_type,start_time,end_time,status,invitee_email" ::
      events.map fun e =>
        e.event_id ++ "," ++ e.event_type ++ "," ++ e.start_time ++ "," ++
          e.end_time ++ "," ++ e.status ++ "," ++ e.invitee_email)

/-- CSV rendering of the one-row metrics table. -/
def metricsCsv (rows : List MetricsRow) : String :=
  String.intercalate "\n"
    (("timestamp,total_scheduled_calls,completed_calls,canceled_calls," ++
        "no_show_calls,deleted_calls,completed_percentage," ++
        "canceled_percentage,no_show_percentage,deleted_percentage") ::
      rows.map fun r =>
        r.timestamp ++ "," ++ toString r.total_scheduled_calls ++ "," ++
          toString r.completed_calls ++ "," ++ toString r.canceled_calls ++ "," ++
          toString r.no_show_calls ++ "," ++ toString r.deleted_calls ++ "," ++
          toString r.completed_percentage ++ "," ++ toString r.canceled_percentage ++
          "," ++ toString r.no_show_percentage ++ "," ++ toString r.deleted_percentage)

/-! ## Entry point (`lambda_handler`, lines 191-220) -/

/-- The structured result the handler returns (lines 210-220).  `json.dumps`
of the message string is modelled as the message itself. -/
structure LambdaResult where
  statusCode : ℕ
  body : String
deriving Repr, DecidableEq

/-- `lambda_handler` (lines 191-220).  `secret` is the outcome of
`get_calendly_api_key`, the only step of the body that raises: on failure the
`except` branch returns 500 with the error message and nothing is fetched or
uploaded; on success the fetch, the two uploads and the metrics computation
run in order and the handler returns 200.  The function returns the handler's
result together with the store state after the run. -/
def lambda_handler (secret : Except String String) (fuel : ℕ) (now : ℤ)
    (orgResp : HttpResp (Option String)) (etResp : HttpResp (List String))
    (api : EventsUrl → PageResp) (ts : String) (store : List S3Put) :
    LambdaResult × List S3Put :=
  match secret with
  | .error e =>
    ({ statusCode := 500, body := "Lambda execution failed: " ++ e }, store)
  | .ok _api_key =>
    let calendly_df := fetch_calendly_scheduled_calls fuel now orgResp etResp api
    let store1 := upload_to_s3 eventsCsv calendly_df (S3_CALENDLY_PATH ts) store
    let metrics_df := (calculate_metrics ts calendly_df).toList
    let store2 := upload_to_s3 metricsCsv metrics_df (S3_METRICS_PATH ts) store1
    ({ statusCode := 200, body := "Lambda execution completed successfully" }, store2)

/-! ## Helper lemmas about rounding and counting -/

lemma round_le_of_le {x y : ℚ} (h : x ≤ y) : round x ≤ round y := by
  rw [round_eq, round_eq]
  exact Int.floor_le_floor (by linarith)

lemma round2_nonneg {q : ℚ} (h : 0 ≤ q) : 0 ≤ round2 q := by
  unfold round2
  have h0 : (0 : ℤ) ≤ round (q * 100) := by
    have := round_le_of_le (show (0 : ℚ) ≤ q * 100 by nlinarith)
    simpa using this
  positivity

lemma round2_le_100 {q : ℚ} (h : q ≤ 100) : round2 q ≤ 100 := by
  unfold round2
  have h1 : round (q * 100) ≤ round ((10000 : ℚ)) :=
    round_le_of_le (by nlinarith)
  have h2 : round ((10000 : ℚ)) = 10000 := by
    norm_num
  have h3 : ((round (q * 100) : ℤ) : ℚ) ≤ 10000 := by
    exact_mod_cast h1.trans_eq h2
  linarith

lemma pct_nonneg (total value : ℕ) : 0 ≤ pct total value := by
  unfold pct
  split
  · exact round2_nonneg (by positivity)
  · exact le_refl 0

lemma pct_le_100 (total value : ℕ) (h : value ≤ total) :
    pct total value ≤ 100 := by
  unfold pct
  split
  · rename_i ht
    apply round2_le_100
    have htq : (0 : ℚ) < (total : ℚ) := by exact_mod_cast ht
    have hv : ((value : ℚ) / (total : ℚ)) ≤ 1 :=
      (div_le_one htq).mpr (by exact_mod_cast h)
    nlinarith
  · norm_num

lemma countStatus_le_length (events : List CalEvent) (s : String) :
    countStatus events s ≤ events.length :=
  List.countP_le_length _

lemma countStatus_five_sum_le (events : List CalEvent) :
    countStatus events "active" + countStatus events "completed" +
      countStatus events "canceled" + countStatus events "no_show" +
      countStatus events "deleted" ≤ events.length := by
  induction events with
  | nil => simp [countStatus]
  | cons e l ih =>
    simp only [countStatus, List.countP_cons, List.length_cons] at *
    by_cases h1 : e.status = "active" <;> by_cases h2 : e.status = "completed" <;>
      by_cases h3 : e.status = "canceled" <;> by_cases h4 : e.status = "no_show" <;>
      by_cases h5 : e.status = "deleted" <;> simp_all <;> omega

/-! ## Concrete fixtures used by witnesses -/

def evActive : CalEvent :=
  { event_id := "e1", event_type := "etA", start_time := "", end_time := "",
    status := "active", invitee_email := "N/A" }

def evCompleted : CalEvent :=
  { event_id := "e2", event_type := "etA", start_time := "", end_time := "",
    status := "completed", invitee_email := "N/A" }

/-! ## Claim theorems: the aggregator -/

/-- C2: for every non-empty event collection, `calculate_metrics` emits a row
whose `completed_calls` is the count of status `"active"` plus the count of
status `"completed"`, and whose `canceled_calls`, `no_show_calls` and
`deleted_calls` each count exactly that status; in particular the two-event
input `{status: active}, {status: completed}` yields `completed_calls = 2`. -/
theorem calculate_metrics_counts (ts : String) (events : List CalEvent)
    (h : events ≠ []) :
    ∃ r, calculate_metrics ts events = some r ∧
      r.completed_calls =
        countStatus events "active" + countStatus events "completed" ∧
      r.canceled_calls = countStatus events "canceled" ∧
      r.no_show_calls = countStatus events "no_show" ∧
      r.deleted_calls = countStatus events "deleted" ∧
      (events = [evActive, evCompleted] → r.completed_calls = 2) := by
  unfold calculate_metrics
  rw [if_neg h]
  refine ⟨_, rfl, rfl, rfl, rfl, rfl, ?_⟩
  intro he
  subst he
  dsimp only
  decide

theorem calculate_metrics_counts_witness :
    [evActive, evCompleted] ≠ ([] : List CalEvent) ∧
      ∃ r, calculate_metrics "t" [evActive, evCompleted] = some r ∧
        r.completed_calls =
          countStatus [evActive, evCompleted] "active" +
            countStatus [evActive, evCompleted] "completed" ∧
        r.canceled_calls = countStatus [evActive, evCompleted] "canceled" ∧
        r.no_show_calls = countStatus [evActive, evCompleted] "no_show" ∧
        r.deleted_calls = countStatus [evActive, evCompleted] "deleted" ∧
        ([evActive, evCompleted] = [evActive, evCompleted] →
          r.completed_calls = 2) :=
  ⟨List.cons_ne_nil _ _,
    calculate_metrics_counts "t" [evActive, evCompleted] (List.cons_ne_nil _ _)⟩

/-- C3: `pct` equals `round2 (value / total * 100)` whenever `total > 0` and
`0` when `total = 0`; it is always a well-defined rational (the rational model
has no NaN), and `pct` of `0` is `0` also for a positive total. -/
theorem pct_spec (total value : ℕ) :
    pct total value =
      (if total > 0 then round2 (((value : ℚ) / (total : ℚ)) * 100) else 0) ∧
    pct total 0 = 0 ∧ pct 0 value = 0 := by
  refine ⟨rfl, ?_, rfl⟩
  unfold pct round2
  split <;> simp

/-- C5: for every non-empty event collection, the metrics row satisfies
`completed + canceled + no_show + deleted ≤ total_scheduled_calls` and each of
the four percentage fields lies in `[0, 100]`. -/
theorem calculate_metrics_invariants (ts : String) (events : List CalEvent)
    (h : events ≠ []) :
    ∃ r, calculate_metrics ts events = some r ∧
      r.completed_calls + r.canceled_calls + r.no_show_calls + r.deleted_calls ≤
        r.total_scheduled_calls ∧
      0 ≤ r.completed_percentage ∧ r.completed_percentage ≤ 100 ∧
      0 ≤ r.canceled_percentage ∧ r.canceled_percentage ≤ 100 ∧
      0 ≤ r.no_show_percentage ∧ r.no_show_percentage ≤ 100 ∧
      0 ≤ r.deleted_percentage ∧ r.deleted_percentage ≤ 100 := by
  unfold calculate_metrics
  rw [if_neg h]
  have hsum := countStatus_five_sum_le events
  have hcA := countStatus_le_length events "active"
  have hcC := countStatus_le_length events "completed"
  refine ⟨_, rfl, ?_, ?_, ?_, ?_, ?_, ?_, ?_, ?_, ?_⟩ <;> dsimp only
  · omega
  · exact pct_nonneg _ _
  · exact pct_le_100 _ _ (by omega)
  · exact pct_nonneg _ _
  · exact pct_le_100 _ _ (by omega)
  · exact pct_nonneg _ _
  · exact pct_le_100 _ _ (by omega)
  · exact pct_nonneg _ _
  · exact pct_le_100 _ _ (by omega)

theorem calculate_metrics_invariants_witness :
    [evActive] ≠ ([] : List CalEvent) ∧
      ∃ r, calculate_metrics "t" [evActive] = some r ∧
        r.completed_calls + r.canceled_calls + r.no_show_calls + r.deleted_calls ≤
          r.total_scheduled_calls ∧
        0 ≤ r.completed_percentage ∧ r.completed_percentage ≤ 100 ∧
        0 ≤ r.canceled_percentage ∧ r.canceled_percentage ≤ 100 ∧
        0 ≤ r.no_show_percentage ∧ r.no_show_percentage ≤ 100 ∧
        0 ≤ r.deleted_percentage ∧ r.deleted_percentage ≤ 100 :=
  ⟨List.cons_ne_nil _ _,
    calculate_metrics_invariants "t" [evActive] (List.cons_ne_nil _ _)⟩

/-- C6: aggregating an empty collection yields no metrics row at all — the
result is `none`, never `some` of any row (in particular not a row of
zeros). -/
theorem calculate_metrics_empty (ts : String) :
    calculate_metrics ts [] = none ∧
      ∀ r : MetricsRow, calculate_metrics ts [] ≠ some r := by
  refine ⟨rfl, ?_⟩
  intro r hr
  exact Option.noConfusion hr

/-- C7: uploading an empty table is a no-op — the store receives zero writes
for that artifact and its state is returned unchanged. -/
theorem upload_to_s3_empty_noop {α : Type} (to_csv : List α → String)
    (s3_path : String) (store : List S3Put) :
    upload_to_s3 to_csv [] s3_path store = store := rfl

/-! ## Helper lemmas about the fetch -/

lemma fetch_eq_flatMap_requests (fuel : ℕ) (now : ℤ)
    (orgResp : HttpResp (Option String)) (etResp : HttpResp (List String))
    (api : EventsUrl → PageResp) :
    fetch_calendly_scheduled_calls fuel now orgResp etResp api =
      (fetchRequests now orgResp etResp).flatMap
        (fun q => runPages api q.status fuel (some (EventsUrl.query q))) := by
  unfold fetch_calendly_scheduled_calls fetchRequests
  cases horg : get_calendly_org_uri orgResp with
  | none => simp
  | some org_uri =>
    dsimp only
    by_cases ho : org_uri = ""
    · simp [ho]
    · rw [if_neg ho, if_neg ho]
      by_cases he : get_event_types etResp = []
      · simp [he]
      · rw [if_neg he, if_neg he]
        induction get_event_types etResp with
        | nil => simp
        | cons et rest ih => simp_all

lemma mem_fetchRequests (now : ℤ) (orgResp : HttpResp (Option String))
    (etResp : HttpResp (List String)) (q : EventsQuery)
    (hq : q ∈ fetchRequests now orgResp etResp) :
    q.min_start_time = start_date now ∧ q.max_start_time = end_date now ∧
      (q.status = "active" ∨ q.status = "canceled") := by
  unfold fetchRequests at hq
  cases horg : get_calendly_org_uri orgResp with
  | none => simp [horg] at hq
  | some org_uri =>
    rw [horg] at hq
    dsimp only at hq
    by_cases ho : org_uri = ""
    · simp [ho] at hq
    · rw [if_neg ho] at hq
      by_cases he : get_event_types etResp = []
      · simp [he] at hq
      · rw [if_neg he] at hq
        simp only [List.mem_flatMap, List.mem_map] at hq
        obtain ⟨et, _, st, hst, rfl⟩ := hq
        simp only [List.mem_cons, List.mem_singleton] at hst
        rcases hst with rfl | rfl | h
        · exact ⟨rfl, rfl, Or.inl rfl⟩
        · exact ⟨rfl, rfl, Or.inr rfl⟩
        · simp at h

/-! ## Fixtures for the fetch witnesses: two event types where `etA/active`
yields three events on one page and `etB/canceled` answers with a 500 -/

def rawEv1 : RawEvent :=
  { uri := some "u1", event_type := some "etA", start_time := some "t1",
    end_time := some "t2", event_status := none, location := none }

def rawEv2 : RawEvent :=
  { uri := some "u2", event_type := some "etA", start_time := some "t3",
    end_time := some "t4", event_status := none, location := none }

def rawEv3 : RawEvent :=
  { uri := some "u3", event_type := some "etA", start_time := some "t5",
    end_time := some "t6", event_status := none, location := none }

def qAactive : EventsQuery :=
  { event_type := "etA", organization := "org", status := "active",
    min_start_time := -7776000, max_start_time := 604800, count := 100 }

def qBcanceled : EventsQuery :=
  { event_type := "etB", organization := "org", status := "canceled",
    min_start_time := -7776000, max_start_time := 604800, count := 100 }

def apiW : EventsUrl → PageResp := fun url =>
  match url with
  | .query q =>
    if q.event_type = "etA" ∧ q.status = "active" then
      PageResp.ok [rawEv1, rawEv2, rawEv3] none
    else if q.event_type = "etB" ∧ q.status = "canceled" then
      PageResp.err 500 "boom"
    else PageResp.ok [] none
  | .next _ => PageResp.ok [] none

/-! ## Claim theorems: the fetch -/

/-- C1: the fetch is the concatenation of each (event_type, status)
combination's paginated results; a non-2xx response makes the pagination loop
of that combination stop (emitting nothing further for it), and every event a
combination's pages produced is retained in the returned collection, whatever
the server answers for the other combinations. -/
theorem fetch_partial_failure (fuel : ℕ) (now : ℤ)
    (orgResp : HttpResp (Option String)) (etResp : HttpResp (List String))
    (api : EventsUrl → PageResp) :
    (fetch_calendly_scheduled_calls fuel now orgResp etResp api =
       (fetchRequests now orgResp etResp).flatMap
         (fun q => runPages api q.status fuel (some (EventsUrl.query q)))) ∧
    (∀ status n url c txt, api url = PageResp.err c txt →
       runPages api status (n + 1) (some url) = []) ∧
    (∀ q ∈ fetchRequests now orgResp etResp,
       ∀ e ∈ runPages api q.status fuel (some (EventsUrl.query q)),
         e ∈ fetch_calendly_scheduled_calls fuel now orgResp etResp api) := by
  refine ⟨fetch_eq_flatMap_requests fuel now orgResp etResp api, ?_, ?_⟩
  · intro status n url c txt hurl
    simp [runPages, hurl]
  · intro q hq e he
    rw [fetch_eq_flatMap_requests]
    exact List.mem_flatMap.mpr ⟨q, hq, he⟩

theorem fetch_partial_failure_witness :
    apiW (EventsUrl.query qBcanceled) = PageResp.err 500 "boom" ∧
    runPages apiW "canceled" (1 + 1) (some (EventsUrl.query qBcanceled)) = [] ∧
    qAactive ∈
      fetchRequests 0 (HttpResp.ok (some "org")) (HttpResp.ok ["etA", "etB"]) ∧
    mkEvent "active" rawEv1 ∈
      fetch_calendly_scheduled_calls 2 0 (HttpResp.ok (some "org"))
        (HttpResp.ok ["etA", "etB"]) apiW :=
  ⟨by decide,
   (fetch_partial_failure 2 0 (HttpResp.ok (some "org"))
       (HttpResp.ok ["etA", "etB"]) apiW).2.1 "canceled" 1
     (EventsUrl.query qBcanceled) 500 "boom" (by decide),
   by decide,
   (fetch_partial_failure 2 0 (HttpResp.ok (some "org"))
       (HttpResp.ok ["etA", "etB"]) apiW).2.2 qAactive (by decide)
     (mkEvent "active" rawEv1) (by decide)⟩

/-- C8: every scheduled-events query the fetch constructs carries the window
from 90 days in the past to 7 days in the future of the single `now` taken at
the start of the fetch, so all requests of a run share the same two
boundaries. -/
theorem fetch_window_fixed (now : ℤ) (orgResp : HttpResp (Option String))
    (etResp : HttpResp (List String)) :
    (∀ q ∈ fetchRequests now orgResp etResp,
       q.min_start_time = now - 90 * 86400 ∧
       q.max_start_time = now + 7 * 86400) ∧
    (∀ q ∈ fetchRequests now orgResp etResp,
      ∀ q' ∈ fetchRequests now orgResp etResp,
        q.min_start_time = q'.min_start_time ∧
        q.max_start_time = q'.max_start_time) := by
  constructor
  · intro q hq
    have h := mem_fetchRequests now orgResp etResp q hq
    exact ⟨h.1, h.2.1⟩
  · intro q hq q' hq'
    have h := mem_fetchRequests now orgResp etResp q hq
    have h' := mem_fetchRequests now orgResp etResp q' hq'
    exact ⟨h.1.trans h'.1.symm, h.2.1.trans h'.2.1.symm⟩

theorem fetch_window_fixed_witness :
    qAactive ∈
      fetchRequests 0 (HttpResp.ok (some "org")) (HttpResp.ok ["etA", "etB"]) ∧
    qAactive.min_start_time = 0 - 90 * 86400 ∧
    qAactive.max_start_time = 0 + 7 * 86400 :=
  ⟨by decide,
   (fetch_window_fixed 0 (HttpResp.ok (some "org"))
       (HttpResp.ok ["etA", "etB"])).1 qAactive (by decide)⟩

/-- C9: a page item carrying no invitee email (its `location` object missing,
or present without an `email` field) is mapped to a record whose
`invitee_email` is the literal string `"N/A"`. -/
theorem mkEvent_missing_email (status : String) (event : RawEvent)
    (h : event.location = none ∨
      ∃ loc, event.location = some loc ∧ loc.email = none) :
    (mkEvent status event).invitee_email = "N/A" := by
  rcases h with h | ⟨loc, h, he⟩
  · simp [mkEvent, h]
  · simp [mkEvent, h, he]

def rawNoLoc : RawEvent :=
  { uri := some "u", event_type := some "et", start_time := some "s",
    end_time := some "e", event_status := some "active", location := none }

theorem mkEvent_missing_email_witness :
    (rawNoLoc.location = none ∨
      ∃ loc, rawNoLoc.location = some loc ∧ loc.email = none) ∧
    (mkEvent "active" rawNoLoc).invitee_email = "N/A" :=
  ⟨Or.inl rfl, mkEvent_missing_email "active" rawNoLoc (Or.inl rfl)⟩

/-- C10: when a page item lacks `event_status`, the record's status is the
combination's status query value; a record status of `"completed"`,
`"no_show"` or `"deleted"` therefore only arises when the item carries it
explicitly, the fetch querying only with `"active"` and `"canceled"`. -/
theorem mkEvent_status_from_query (status : String) (event : RawEvent)
    (hst : status = "active" ∨ status = "canceled") :
    (event.event_status = none → (mkEvent status event).status = status) ∧
    (∀ s, s = "completed" ∨ s = "no_show" ∨ s = "deleted" →
      (mkEvent status event).status = s → event.event_status = some s) ∧
    (∀ now orgResp etResp q, q ∈ fetchRequests now orgResp etResp →
      q.status = "active" ∨ q.status = "canceled") := by
  refine ⟨?_, ?_, ?_⟩
  · intro h
    simp [mkEvent, h]
  · intro s hs hstat
    cases h : event.event_status with
    | none =>
      exfalso
      simp only [mkEvent, h, Option.getD_none] at hstat
      rcases hst with rfl | rfl <;> rcases hs with rfl | rfl | rfl <;> simp_all
    | some v =>
      simp only [mkEvent, h, Option.getD_some] at hstat
      rw [hstat]
  · intro now orgResp etResp q hq
    exact (mem_fetchRequests now orgResp etResp q hq).2.2

def rawNoStatus : RawEvent :=
  { uri := some "u", event_type := some "et", start_time := some "s",
    end_time := some "e", event_status := none, location := none }

theorem mkEvent_status_from_query_witness :
    ("active" = "active" ∨ "active" = "canceled") ∧
    ((rawNoStatus.event_status = none →
        (mkEvent "active" rawNoStatus).status = "active") ∧
     (∀ s, s = "completed" ∨ s = "no_show" ∨ s = "deleted" →
        (mkEvent "active" rawNoStatus).status = s →
          rawNoStatus.event_status = some s) ∧
     (∀ now orgResp etResp q, q ∈ fetchRequests now orgResp etResp →
        q.status = "active" ∨ q.status = "canceled")) :=
  ⟨Or.inl rfl, mkEvent_status_from_query "active" rawNoStatus (Or.inl rfl)⟩

/-! ## Claim theorems: the entry point on an event-type listing failure -/

/-- C4 counterexample: with a valid secret and organization but a non-2xx
event-type listing, the handler returns status_code 200 with the success
message — not the 500 failure result the claim asserts — because
`fetch_calendly_scheduled_calls` swallows the condition by returning an empty
collection instead of raising. -/
theorem event_type_error_returns_200 :
    (lambda_handler (Except.ok "key") 1 0 (HttpResp.ok (some "org"))
        (HttpResp.err 500 "boom") (fun _ => PageResp.ok [] none) "ts" []).1 =
      { statusCode := 200, body := "Lambda execution completed successfully" } ∧
    (lambda_handler (Except.ok "key") 1 0 (HttpResp.ok (some "org"))
        (HttpResp.err 500 "boom") (fun _ => PageResp.ok [] none) "ts" []).1.statusCode
      ≠ 500 := by
  constructor
  · rfl
  · decide

/-- C4 (amended): when the event-type listing is non-2xx or empty, the fetch
returns early with the empty collection — no scheduled-events request is
constructed — and the run performs no uploads; the entry point nevertheless
reports success (status_code 200), not failure. -/
theorem event_type_failure_aborts_fetch (key : String) (fuel : ℕ) (now : ℤ)
    (orgResp : HttpResp (Option String)) (etResp : HttpResp (List String))
    (api : EventsUrl → PageResp) (ts : String) (store : List S3Put)
    (h : get_event_types etResp = []) :
    fetchRequests now orgResp etResp = [] ∧
    fetch_calendly_scheduled_calls fuel now orgResp etResp api = [] ∧
    (lambda_handler (Except.ok key) fuel now orgResp etResp api ts store).1 =
      { statusCode := 200, body := "Lambda execution completed successfully" } ∧
    (lambda_handler (Except.ok key) fuel now orgResp etResp api ts store).2 =
      store := by
  have hreq : fetchRequests now orgResp etResp = [] := by
    unfold fetchRequests
    cases horg : get_calendly_org_uri orgResp with
    | none => rfl
    | some org_uri =>
      dsimp only
      split
      · rfl
      · simp [h]
  have hfetch : fetch_calendly_scheduled_calls fuel now orgResp etResp api = [] := by
    rw [fetch_eq_flatMap_requests, hreq]
    rfl
  refine ⟨hreq, hfetch, ?_, ?_⟩ <;>
    simp [lambda_handler, hfetch, upload_to_s3, calculate_metrics]

theorem event_type_failure_aborts_fetch_witness :
    get_event_types (HttpResp.err 500 "boom" : HttpResp (List String)) = [] ∧
    (fetchRequests 0 (HttpResp.ok (some "org")) (HttpResp.err 500 "boom") = [] ∧
     fetch_calendly_scheduled_calls 1 0 (HttpResp.ok (some "org"))
       (HttpResp.err 500 "boom") (fun _ => PageResp.ok [] none) = [] ∧
     (lambda_handler (Except.ok "key") 1 0 (HttpResp.ok (some "org"))
         (HttpResp.err 500 "boom") (fun _ => PageResp.ok [] none) "ts" []).1 =
       { statusCode := 200, body := "Lambda execution completed successfully" } ∧
     (lambda_handler (Except.ok "key") 1 0 (HttpResp.ok (some "org"))
         (HttpResp.err 500 "boom") (fun _ => PageResp.ok [] none) "ts" []).2 =
       []) :=
  ⟨rfl,
   event_type_failure_aborts_fetch "key" 1 0 (HttpResp.ok (some "org"))
     (HttpResp.err 500 "boom") (fun _ => PageResp.ok [] none) "ts" [] rfl⟩

end LambdaFn
